import Mathlib

/-!
Shallow embedding of `src/resource.ts` (the Risu resource / action registry).

The TypeScript source is a builder (`ResourceBuilder`) that accumulates
actions, per-action notifier sets, api routes and a context, and a built
aggregate (`BaseResource`) with `getAction` / `callAction` / `getApi` /
`callApi`.

Modelling choices, all read off the source:
  * JavaScript objects (`this._actions`, `this._apis`) and the
    `Map`/`Set` of notifiers are mutable heap structures shared by
    reference (the constructor stores the references it is given and
    `build()` passes them on unchanged).  We therefore model a heap
    (`State`) of three stores indexed by `Nat` references, and both the
    builder and the built resource hold references into it.
  * `Context` is opaque; we model it by a type parameter `V`, which is
    also the type of action arguments and results (values are untyped at
    runtime).  `E` is the type of failures raised by user code (actions
    and notifiers); dispatcher failures are the distinguished
    constructors of `Err`.
  * An action `(context, ...args) => Promise<Output>` becomes
    `V → List V → Except E V`; a rejected promise is `Except.error`.
  * A notifier is identified by a `Nat` (JS `Set` deduplicates function
    values by reference identity); its behaviour lives in an
    environment `Env`.  The notifiers of the source are synchronous
    `(result) => void` functions, so
    `Promise.all([...notifiers].map((fn) => fn(result)))` runs them in
    set-insertion order and a throwing notifier stops the `map` at the
    first failure; `runNotifiers` mirrors exactly that.
  * `callAction` / `callApi` return the trace of invocation events
    (action call, notifier calls) together with the settled outcome;
    the trace records everything that completed before the promise
    settles.
-/

deriving instance DecidableEq for Except

namespace Risu

/-- Mirrors `type Method = "GET" | "POST" | "PUT" | "DELETE"`. -/
inductive Method
  | GET
  | POST
  | PUT
  | DELETE
deriving DecidableEq

/-- Mirrors `type Api<Route, Actions> = { method; route; action }`. -/
structure Api where
  method : Method
  route : String
  action : String
deriving DecidableEq

/-- An action `(context, ...args) => Promise<Output>`. -/
abbrev ActionFn (V E : Type) := V → List V → Except E V

/-- The `_actions` record: action name to stored function. -/
abbrev ActionMap (V E : Type) := String → Option (ActionFn V E)

/-- The `_apis` record: route string to stored api triple. -/
abbrev ApiMap := String → Option Api

/-- The `_notifiers` map: action name to the notifier set, modelled as the
insertion-ordered duplicate-free list of notifier identities.  A name with
no `Map` entry reads as `[]`, which is behaviourally identical to the
source's `undefined` (the `notifiers?.size` guard skips both). -/
abbrev NotifMap := String → List Nat

/-- Pointwise update of a string-keyed record. -/
def updS {X : Type} (m : String → X) (k : String) (v : X) : String → X :=
  fun a => if a = k then v else m a

/-- Pointwise update of a `Nat`-indexed heap store. -/
def updN {X : Type} (m : Nat → X) (k : Nat) (v : X) : Nat → X :=
  fun a => if a = k then v else m a

/-- `Set.add`: append the identity unless it is already present
(JS `Set` semantics, insertion order kept). -/
def dedupAdd (l : List Nat) (i : Nat) : List Nat :=
  if i ∈ l then l else l ++ [i]

/-- The mutable heap: three stores of shared record/map objects, plus an
allocation counter for fresh objects (`{}` / `new Map()`). -/
structure State (V E : Type) where
  nextRef : Nat
  actionsStore : Nat → ActionMap V E
  apisStore : Nat → ApiMap
  notifStore : Nat → NotifMap

/-- The empty heap. -/
def State.init (V E : Type) : State V E :=
  ⟨0, fun _ _ => none, fun _ _ => none, fun _ _ => []⟩

/-- Mirrors `class ResourceBuilder`: the name and context values, and the
references to the `_actions`, `_apis` and `_notifiers` heap objects. -/
structure ResourceBuilder (V : Type) where
  _name : String
  _context : V
  _actions : Nat
  _apis : Nat
  _notifiers : Nat

/-- Mirrors `class BaseResource`: same fields as the builder (the
constructor stores exactly what it is handed). -/
structure BaseResource (V : Type) where
  _name : String
  _context : V
  _actions : Nat
  _apis : Nat
  _notifiers : Nat

/-- Read-modify-write of one string key of one heap object: the shape of
every builder registration (`this._actions[name] = action`,
`this._apis[route] = {...}`, `this._notifiers.get(name)!.add(n)`). -/
def bump {X : Type} (m : Nat → String → X) (k : Nat) (n : String) (f : X → X) :
    Nat → String → X :=
  updN m k (updS (m k) n (f (m k n)))

/-- `createResource(name)` plus the `ResourceBuilder` constructor:
allocates a fresh empty `_actions` record, `_apis` record and
`_notifiers` map.  The source defaults the context to `{}`; the caller
of the model supplies that default value explicitly as `ctx`. -/
def createResource (V E : Type) (name : String) (ctx : V) (s : State V E) :
    State V E × ResourceBuilder V :=
  (⟨s.nextRef + 3,
    updN s.actionsStore s.nextRef (fun _ => none),
    updN s.apisStore (s.nextRef + 1) (fun _ => none),
    updN s.notifStore (s.nextRef + 2) (fun _ => [])⟩,
   ⟨name, ctx, s.nextRef, s.nextRef + 1, s.nextRef + 2⟩)

/-- Source lines 70-74: `setContext` returns
`new ResourceBuilder(this._name, context, this._actions)`: a NEW builder
that shares the `_actions` record by reference but gets a freshly
allocated empty `_apis` record and `_notifiers` map from the
constructor. -/
def ResourceBuilder.setContext {V E : Type} (s : State V E) (b : ResourceBuilder V)
    (ctx : V) : State V E × ResourceBuilder V :=
  (⟨s.nextRef + 2,
    s.actionsStore,
    updN s.apisStore s.nextRef (fun _ => none),
    updN s.notifStore (s.nextRef + 1) (fun _ => [])⟩,
   ⟨b._name, ctx, b._actions, s.nextRef, s.nextRef + 1⟩)

/-- Source lines 86-96: `(this._actions as any)[name] = action; return this`. -/
def ResourceBuilder.createAction {V E : Type} (s : State V E) (b : ResourceBuilder V)
    (name : String) (fn : ActionFn V E) : State V E × ResourceBuilder V :=
  ({ s with actionsStore := bump s.actionsStore b._actions name (fun _ => some fn) }, b)

/-- Source lines 104-113: get-or-create the `Set` for `name`, `add` the
notifier to it, `return this`. -/
def ResourceBuilder.addNotifier {V E : Type} (s : State V E) (b : ResourceBuilder V)
    (name : String) (nid : Nat) : State V E × ResourceBuilder V :=
  ({ s with notifStore := bump s.notifStore b._notifiers name (fun l => dedupAdd l nid) }, b)

/-- Source lines 115-126: `(this._apis as any)[route] = { method, route, action: name };
return this`.  The source defaults `method` to `"GET"`; the model takes it
explicitly. -/
def ResourceBuilder.addApi {V E : Type} (s : State V E) (b : ResourceBuilder V)
    (route : String) (name : String) (method : Method) : State V E × ResourceBuilder V :=
  ({ s with apisStore := bump s.apisStore b._apis route (fun _ => some ⟨method, route, name⟩) }, b)

/-- Source lines 133-141: `build()` hands the builder's `_context`,
`_actions`, `_notifiers` and `_apis` straight to the `BaseResource`
constructor, which stores them — the references are shared, nothing is
copied. -/
def ResourceBuilder.build {V : Type} (b : ResourceBuilder V) : BaseResource V :=
  ⟨b._name, b._context, b._actions, b._apis, b._notifiers⟩

/-- The four chainable registration calls of the build phase. -/
inductive BOp (V E : Type)
  | createAction (name : String) (fn : ActionFn V E)
  | addNotifier (name : String) (nid : Nat)
  | addApi (route : String) (name : String) (method : Method)
  | setContext (ctx : V)

/-- Apply one registration call to a (heap, builder) pair. -/
def applyOp {V E : Type} (sb : State V E × ResourceBuilder V) :
    BOp V E → State V E × ResourceBuilder V
  | .createAction name fn => ResourceBuilder.createAction sb.1 sb.2 name fn
  | .addNotifier name nid => ResourceBuilder.addNotifier sb.1 sb.2 name nid
  | .addApi route name method => ResourceBuilder.addApi sb.1 sb.2 route name method
  | .setContext c => ResourceBuilder.setContext sb.1 sb.2 c

/-- Whether a registration call is a `setContext`. -/
def BOp.isSetContext {V E : Type} : BOp V E → Bool
  | .setContext _ => true
  | _ => false

/-- Two registration calls collide when they write the same key of the
same store: same action name for `createAction`, same action name for
`addNotifier`, same route for `addApi`. -/
def collides {V E : Type} : BOp V E → BOp V E → Prop
  | .createAction n _, .createAction m _ => n = m
  | .addNotifier n _, .addNotifier m _ => n = m
  | .addApi r _ _, .addApi q _ _ => r = q
  | _, _ => False

/-- The builder's references are live heap objects (every builder reached
by `createResource` followed by registration calls satisfies this). -/
def WFB {V E : Type} (s : State V E) (b : ResourceBuilder V) : Prop :=
  b._actions < s.nextRef ∧ b._apis < s.nextRef ∧ b._notifiers < s.nextRef

/-- Dispatcher failures, mirroring the thrown `Error` messages, plus
`user` for any failure raised by caller-supplied code (an action body or
a notifier), which the dispatcher propagates unchanged. -/
inductive Err (E : Type)
  | actionNotFound (name : String)
  | apiNotFound (route : String)
  | methodNotAllowed (method : Method) (route : String)
  | user (e : E)
deriving DecidableEq

/-- The method's wire string. -/
def Method.text : Method → String
  | .GET => "GET"
  | .POST => "POST"
  | .PUT => "PUT"
  | .DELETE => "DELETE"

/-- The message of the thrown `Error`, exactly as the source builds it;
`showUser` renders caller-supplied failures. -/
def Err.message {E : Type} (showUser : E → String) : Err E → String
  | .actionNotFound name => "Action " ++ name ++ " not found"
  | .apiNotFound route => "API " ++ route ++ " not found"
  | .methodNotAllowed m route => "Method " ++ m.text ++ " not allowed for API " ++ route
  | .user e => showUser e

/-- Observable events of one dispatch: the action body being invoked,
and each notifier being invoked with the result value. -/
inductive Event (V : Type)
  | actionCall (name : String) (args : List V)
  | notifierCall (id : Nat) (result : V)
deriving DecidableEq

/-- The behaviour of the notifier functions, keyed by identity. -/
structure Env (V E : Type) where
  notifierFn : Nat → V → Except E Unit

/-- `Promise.all([...notifiers].map((fn) => fn(result)))` for the
synchronous notifiers of the source: invoke each notifier in
set-insertion order; a throwing notifier stops the `map` at the first
failure, whose error rejects the barrier. -/
def runNotifiers {V E : Type} (env : Env V E) (v : V) :
    List Nat → List (Event V) × Option E
  | [] => ([], none)
  | i :: rest =>
    match env.notifierFn i v with
    | .ok _ =>
      let out := runNotifiers env v rest
      (Event.notifierCall i v :: out.1, out.2)
    | .error e => ([Event.notifierCall i v], some e)

/-- Source lines 204-208: `return this._actions[name]`. -/
def BaseResource.getAction {V E : Type} (s : State V E) (r : BaseResource V)
    (name : String) : Option (ActionFn V E) :=
  s.actionsStore r._actions name

/-- The notifier list the resource reads for `name`. -/
def BaseResource.notifsOf {V E : Type} (s : State V E) (r : BaseResource V)
    (name : String) : List Nat :=
  s.notifStore r._notifiers name

/-- The api record the resource reads. -/
def BaseResource.apisOf {V E : Type} (s : State V E) (r : BaseResource V) : ApiMap :=
  s.apisStore r._apis

/-- The action record the resource reads. -/
def BaseResource.actionsOf {V E : Type} (s : State V E) (r : BaseResource V) :
    ActionMap V E :=
  s.actionsStore r._actions

/-- Source lines 219-238, `callAction`:
look the action up (absent: throw `Action _ not found`); await
`action(this._context, ...args)` (a rejection propagates unchanged);
run every registered notifier with the result and await them all; return
the result.  The first component is the event trace that completed
before the promise settles. -/
def BaseResource.callAction {V E : Type} (env : Env V E) (s : State V E)
    (r : BaseResource V) (name : String) (args : List V) :
    List (Event V) × Except (Err E) V :=
  match BaseResource.getAction s r name with
  | none => ([], .error (.actionNotFound name))
  | some f =>
    match f r._context args with
    | .error e => ([.actionCall name args], .error (.user e))
    | .ok v =>
      let out := runNotifiers env v (s.notifStore r._notifiers name)
      (.actionCall name args :: out.1,
        match out.2 with
        | none => .ok v
        | some e => .error (.user e))

/-- Source lines 246-253, `getApi`: look the route up; absent, or present
with a stored method different from the requested one, yields
`undefined`. -/
def BaseResource.getApi {V E : Type} (s : State V E) (r : BaseResource V)
    (route : String) (method : Method) : Option Api :=
  match s.apisStore r._apis route with
  | none => none
  | some api => if api.method = method then some api else none

/-- Source lines 262-280, `callApi`: resolve via `getApi` (absent: throw
`API _ not found`); defensively re-check the method (throw
`Method _ not allowed for API _`); delegate to `callAction` with the
resolved action name and the same arguments. -/
def BaseResource.callApi {V E : Type} (env : Env V E) (s : State V E)
    (r : BaseResource V) (route : String) (method : Method) (args : List V) :
    List (Event V) × Except (Err E) V :=
  match BaseResource.getApi s r route method with
  | none => ([], .error (.apiNotFound route))
  | some api =>
    if api.method ≠ method then ([], .error (.methodNotAllowed method route))
    else BaseResource.callAction env s r api.action args

/-- Outcome classifier: a `MethodNotAllowed` rejection. -/
def isMethodNotAllowed {V E : Type} : Except (Err E) V → Bool
  | .error (.methodNotAllowed _ _) => true
  | _ => false

/-- Outcome classifier: a rejection carrying a caller-supplied failure. -/
def isUserError {V E : Type} : Except (Err E) V → Bool
  | .error (.user _) => true
  | _ => false

/-! Concrete scenario used by the witnesses, mirroring the test suite and
the spec's concrete examples: a `TestResource` with a `double` action,
notifiers `0`, `1` (well-behaved) and `7` (throwing), and a
`POST /create` api route. -/

/-- The `double` action: `async (_ctx, num) => num * 2`. -/
def exFn : ActionFn Nat Nat := fun _ args =>
  match args with
  | [n] => Except.ok (n * 2)
  | _ => Except.error 0

/-- Notifier behaviour for the examples: notifier `7` throws `v + 1`,
every other notifier returns normally. -/
def exEnv : Env Nat Nat :=
  ⟨fun i v => if i = 7 then Except.error (v + 1) else Except.ok ()⟩

/-- `createResource("TestResource")` on the empty heap. -/
def exSB0 : State Nat Nat × ResourceBuilder Nat :=
  createResource Nat Nat "TestResource" 0 (State.init Nat Nat)

/-- After `.createAction("double", exFn)`. -/
def exSB1 : State Nat Nat × ResourceBuilder Nat :=
  applyOp exSB0 (BOp.createAction "double" exFn)

/-- After `.addNotifier("double", n0)`. -/
def exSB2 : State Nat Nat × ResourceBuilder Nat :=
  applyOp exSB1 (BOp.addNotifier "double" 0)

/-- After `.addNotifier("double", n1)`. -/
def exSB3 : State Nat Nat × ResourceBuilder Nat :=
  applyOp exSB2 (BOp.addNotifier "double" 1)

/-- After `.addNotifier("double", n7)` (the throwing notifier). -/
def exSB4 : State Nat Nat × ResourceBuilder Nat :=
  applyOp exSB3 (BOp.addNotifier "double" 7)

/-- After `.addApi("/create", "double", "POST")`. -/
def exSB5 : State Nat Nat × ResourceBuilder Nat :=
  applyOp exSB4 (BOp.addApi "/create" "double" Method.POST)

/-- The built resource (every registration call above returns the same
builder object, so building at any of these points yields a resource
with the same references). -/
def exR : BaseResource Nat := ResourceBuilder.build exSB3.2

/-- C3 counterexample, first order: `addNotifier` then `setContext`. -/
def c3seqA : State Nat Nat × ResourceBuilder Nat :=
  applyOp (applyOp exSB0 (BOp.addNotifier "a" 0)) (BOp.setContext 5)

/-- C3 counterexample, second order: `setContext` then `addNotifier`. -/
def c3seqB : State Nat Nat × ResourceBuilder Nat :=
  applyOp (applyOp exSB0 (BOp.setContext 5)) (BOp.addNotifier "a" 0)

/-- C4 counterexample: builder with one action `x`, then built. -/
def c4sb1 : State Nat Nat × ResourceBuilder Nat :=
  applyOp exSB0 (BOp.createAction "x" (fun _ _ => Except.ok 1))

/-- The resource built BEFORE the second `createAction`. -/
def c4r : BaseResource Nat := ResourceBuilder.build c4sb1.2

/-- The same builder after a post-build `createAction("x2", ...)`. -/
def c4sb2 : State Nat Nat × ResourceBuilder Nat :=
  applyOp c4sb1 (BOp.createAction "x2" (fun _ _ => Except.ok 7))

/-! ### Basic lemmas about the map and heap operations -/

theorem updS_eq {X : Type} (m : String → X) (k : String) (v : X) : updS m k v k = v := by
  simp [updS]

theorem updS_ne {X : Type} (m : String → X) (k a : String) (v : X) (h : a ≠ k) :
    updS m k v a = m a := by
  simp [updS, h]

theorem updN_eq {X : Type} (m : Nat → X) (k : Nat) (v : X) : updN m k v k = v := by
  simp [updN]

theorem updN_ne {X : Type} (m : Nat → X) (k a : Nat) (v : X) (h : a ≠ k) :
    updN m k v a = m a := by
  simp [updN, h]

theorem updS_override {X : Type} (m : String → X) (k : String) (v w : X) :
    updS (updS m k v) k w = updS m k w := by
  funext a
  by_cases h : a = k <;> simp [updS, h]

theorem updN_override {X : Type} (m : Nat → X) (k : Nat) (v w : X) :
    updN (updN m k v) k w = updN m k w := by
  funext a
  by_cases h : a = k <;> simp [updN, h]

theorem updS_self {X : Type} (m : String → X) (k : String) : updS m k (m k) = m := by
  funext a
  by_cases h : a = k <;> simp [updS, h]

theorem updN_self {X : Type} (m : Nat → X) (k : Nat) : updN m k (m k) = m := by
  funext a
  by_cases h : a = k <;> simp [updN, h]

theorem updS_comm {X : Type} (m : String → X) (k1 k2 : String) (v1 v2 : X)
    (h : k1 ≠ k2) :
    updS (updS m k1 v1) k2 v2 = updS (updS m k2 v2) k1 v1 := by
  funext a
  by_cases h1 : a = k1 <;> by_cases h2 : a = k2 <;> simp_all [updS]

theorem bump_read {X : Type} (m : Nat → String → X) (k : Nat) (n : String)
    (f : X → X) : bump m k n f k n = f (m k n) := by
  simp [bump, updN_eq, updS_eq]

theorem bump_at {X : Type} (m : Nat → String → X) (k : Nat) (n : String)
    (f : X → X) : bump m k n f k = updS (m k) n (f (m k n)) := by
  simp [bump, updN_eq]

theorem bump_comm {X : Type} (m : Nat → String → X) (k : Nat) (n n' : String)
    (f g : X → X) (h : n ≠ n') :
    bump (bump m k n f) k n' g = bump (bump m k n' g) k n f := by
  have hrw : ∀ (p : X → X) (q : X → X),
      bump (bump m k n p) k n' q
        = updN m k (updS (updS (m k) n (p (m k n))) n' (q (m k n'))) := by
    intro p q
    simp [bump, updN_override, updN_eq, updS_ne _ _ _ _ (Ne.symm h)]
  have hrw' : ∀ (p : X → X) (q : X → X),
      bump (bump m k n' q) k n p
        = updN m k (updS (updS (m k) n' (q (m k n'))) n (p (m k n))) := by
    intro p q
    simp [bump, updN_override, updN_eq, updS_ne _ _ _ _ h]
  rw [hrw f g, hrw' f g, updS_comm _ _ _ _ _ (Ne.symm h)]

theorem bump_idem {X : Type} (m : Nat → String → X) (k : Nat) (n : String)
    (f : X → X) (hf : ∀ x, f (f x) = f x) :
    bump (bump m k n f) k n f = bump m k n f := by
  have h1 : bump (bump m k n f) k n f
      = updN (bump m k n f) k (updS (bump m k n f k) n (f (bump m k n f k n))) := rfl
  rw [h1, bump_read, bump_at, hf, updS_override, ← bump_at, updN_self]

theorem dedupAdd_mem (l : List Nat) (i : Nat) : i ∈ dedupAdd l i := by
  by_cases h : i ∈ l <;> simp [dedupAdd, h]

theorem dedupAdd_idem (l : List Nat) (i : Nat) :
    dedupAdd (dedupAdd l i) i = dedupAdd l i := by
  have h : dedupAdd (dedupAdd l i) i
      = if i ∈ dedupAdd l i then dedupAdd l i else dedupAdd l i ++ [i] := rfl
  rw [h, if_pos (dedupAdd_mem l i)]

theorem dedupAdd_nodup (l : List Nat) (i : Nat) (h : l.Nodup) :
    (dedupAdd l i).Nodup := by
  by_cases hm : i ∈ l
  · simpa [dedupAdd, hm] using h
  · simp [dedupAdd, hm, List.nodup_append, h]

/-! ### Lemmas about the notifier barrier -/

theorem runNotifiers_all_ok {V E : Type} (env : Env V E) (v : V) (ns : List Nat)
    (h : ∀ i ∈ ns, env.notifierFn i v = Except.ok ()) :
    runNotifiers env v ns = (ns.map (fun i => Event.notifierCall i v), none) := by
  induction ns with
  | nil => rfl
  | cons j rest ih =>
    have hj : env.notifierFn j v = Except.ok () := h j (List.mem_cons_self j rest)
    have hr := ih (fun i hi => h i (List.mem_cons_of_mem j hi))
    simp [runNotifiers, hj, hr]

theorem runNotifiers_mem_error {V E : Type} (env : Env V E) (v : V) (ns : List Nat)
    (i : Nat) (e : E) (hi : i ∈ ns) (he : env.notifierFn i v = Except.error e) :
    (runNotifiers env v ns).2.isSome = true := by
  induction ns with
  | nil => cases hi
  | cons j rest ih =>
    cases hj : env.notifierFn j v with
    | error e2 => simp [runNotifiers, hj]
    | ok u =>
      have hir : i ∈ rest := by
        rcases List.mem_cons.mp hi with h1 | h1
        · subst h1
          rw [he] at hj
          cases hj
        · exact h1
      simpa [runNotifiers, hj] using ih hir

theorem count_notifierCall_map {V : Type} [DecidableEq V] (ns : List Nat) (v : V)
    (i : Nat) (hnd : ns.Nodup) (hi : i ∈ ns) :
    (ns.map (fun j => Event.notifierCall j v)).count (Event.notifierCall i v) = 1 := by
  have hinj : Function.Injective (fun j : Nat => Event.notifierCall (V := V) j v) := by
    intro a b hab
    simpa using hab
  rw [List.count_map_of_injective _ _ hinj]
  exact List.count_eq_one_of_mem hnd hi

theorem callAction_trace {V E : Type} (env : Env V E) (s : State V E)
    (r : BaseResource V) (name : String) (args : List V) (f : ActionFn V E) (v : V)
    (hf : BaseResource.getAction s r name = some f)
    (hv : f r._context args = Except.ok v)
    (hns : ∀ j ∈ BaseResource.notifsOf s r name, env.notifierFn j v = Except.ok ()) :
    BaseResource.callAction env s r name args
      = (Event.actionCall name args
          :: (BaseResource.notifsOf s r name).map (fun j => Event.notifierCall j v),
         Except.ok v) := by
  have hrun := runNotifiers_all_ok env v (BaseResource.notifsOf s r name) hns
  simp only [BaseResource.notifsOf] at hrun
  simp [BaseResource.callAction, hf, hv, hrun, BaseResource.notifsOf]

theorem callAction_trace_count {V E : Type} [DecidableEq V] (env : Env V E)
    (s : State V E) (r : BaseResource V) (name : String) (args : List V)
    (f : ActionFn V E) (v : V) (i : Nat)
    (hf : BaseResource.getAction s r name = some f)
    (hv : f r._context args = Except.ok v)
    (hns : ∀ j ∈ BaseResource.notifsOf s r name, env.notifierFn j v = Except.ok ())
    (hnd : (BaseResource.notifsOf s r name).Nodup)
    (hi : i ∈ BaseResource.notifsOf s r name) :
    (BaseResource.callAction env s r name args).1.count (Event.notifierCall i v) = 1 := by
  rw [callAction_trace env s r name args f v hf hv hns]
  have hne : (Event.notifierCall i v) ≠ (Event.actionCall (V := V) name args) := by
    intro hEq
    cases hEq
  rw [List.count_cons_of_ne hne]
  exact count_notifierCall_map _ _ _ hnd hi

/-! ### Claim theorems -/

/-- C1: when the action map binds `name` to `f`, `callAction(name, ...args)`
resolves to exactly the value `f(context, ...args)` resolves to, with the
context auto-injected from the resource; the notifiers run but the value
handed back to the caller is the action's own result. -/
theorem callAction_resolves_action_result {V E : Type} (env : Env V E) (s : State V E)
    (r : BaseResource V) (name : String) (args : List V) (f : ActionFn V E) (v : V)
    (hf : BaseResource.getAction s r name = some f)
    (hv : f r._context args = Except.ok v)
    (hns : ∀ i ∈ BaseResource.notifsOf s r name, env.notifierFn i v = Except.ok ()) :
    (BaseResource.callAction env s r name args).2 = Except.ok v := by
  rw [callAction_trace env s r name args f v hf hv hns]

/-- Witness for C1: the spec's concrete scenario `double(ctx, 5) = 10` on
the built `TestResource`, whose two registered notifiers both run. -/
theorem callAction_resolves_action_result_witness :
    (BaseResource.callAction exEnv exSB3.1 exR "double" [5]).2 = Except.ok 10 :=
  callAction_resolves_action_result exEnv exSB3.1 exR "double" [5] exFn 10
    rfl rfl (by decide)

/-- C9: `callAction` on a name absent from the action map rejects with the
`ActionNotFound`-kind error carrying that name (the thrown message is
`Action <name> not found`), and no action body or notifier runs (the event
trace is empty). -/
theorem callAction_unknown_name_rejects {V E : Type} (env : Env V E) (s : State V E)
    (r : BaseResource V) (name : String) (args : List V)
    (h : BaseResource.getAction s r name = none) :
    BaseResource.callAction env s r name args
      = ([], Except.error (Err.actionNotFound name)) := by
  simp [BaseResource.callAction, h]

/-- Witness for C9: calling `nonExistentAction` on the built
`TestResource` rejects with `ActionNotFound` and an empty trace. -/
theorem callAction_unknown_name_rejects_witness :
    BaseResource.callAction exEnv exSB3.1 exR "nonExistentAction" []
      = ([], Except.error (Err.actionNotFound "nonExistentAction")) :=
  callAction_unknown_name_rejects exEnv exSB3.1 exR "nonExistentAction" [] rfl

/-- C7: `callApi` on a route absent from the route table, or present with
a stored method different from the requested one, rejects with the
`RouteNotFound`-kind error carrying the route (`API <route> not found`),
with an empty event trace: no action body and no notifier runs. -/
theorem callApi_unknown_route_rejects {V E : Type} (env : Env V E) (s : State V E)
    (r : BaseResource V) (route : String) (method : Method) (args : List V)
    (h : BaseResource.apisOf s r route = none
      ∨ ∃ api, BaseResource.apisOf s r route = some api ∧ api.method ≠ method) :
    BaseResource.callApi env s r route method args
      = ([], Except.error (Err.apiNotFound route)) := by
  have hga : BaseResource.getApi s r route method = none := by
    rcases h with h | ⟨api, hapi, hne⟩
    · simp [BaseResource.getApi, show s.apisStore r._apis route = none from h]
    · simp [BaseResource.getApi, show s.apisStore r._apis route = some api from hapi, hne]
  simp [BaseResource.callApi, hga]

/-- Witness for C7: the route `/create` is registered with method `POST`;
requesting it with `GET` rejects with `RouteNotFound` and runs nothing. -/
theorem callApi_unknown_route_rejects_witness :
    BaseResource.callApi exEnv exSB5.1 exR "/create" Method.GET [5]
      = ([], Except.error (Err.apiNotFound "/create")) :=
  callApi_unknown_route_rejects exEnv exSB5.1 exR "/create" Method.GET [5]
    (Or.inr ⟨⟨Method.POST, "/create", "double"⟩, rfl, by decide⟩)

/-- C8: the defensive `MethodNotAllowed` branch of `callApi` is logically
unreachable: whenever `getApi` returns a present entry its stored method
equals the requested method, and no outcome of `callApi` is ever the
`MethodNotAllowed` rejection. -/
theorem methodNotAllowed_unreachable {V E : Type} (env : Env V E) (s : State V E)
    (r : BaseResource V) (route : String) (method : Method) (args : List V) :
    (match BaseResource.getApi s r route method with
      | none => True
      | some api => api.method = method)
    ∧ isMethodNotAllowed (BaseResource.callApi env s r route method args).2 = false := by
  have hcall : ∀ name,
      isMethodNotAllowed (BaseResource.callAction env s r name args).2 = false := by
    intro name
    cases hga : BaseResource.getAction s r name with
    | none => simp [BaseResource.callAction, hga, isMethodNotAllowed]
    | some f =>
      cases hfv : f r._context args with
      | error e => simp [BaseResource.callAction, hga, hfv, isMethodNotAllowed]
      | ok v =>
        cases hrn : (runNotifiers env v (s.notifStore r._notifiers name)).2 with
        | none => simp [BaseResource.callAction, hga, hfv, hrn, isMethodNotAllowed]
        | some e => simp [BaseResource.callAction, hga, hfv, hrn, isMethodNotAllowed]
  cases hga : s.apisStore r._apis route with
  | none =>
    refine ⟨?_, ?_⟩
    · simp [BaseResource.getApi, hga]
    · simp [BaseResource.callApi, BaseResource.getApi, hga, isMethodNotAllowed]
  | some api =>
    by_cases hm : api.method = method
    · refine ⟨?_, ?_⟩
      · simp [BaseResource.getApi, hga, hm]
      · simp [BaseResource.callApi, BaseResource.getApi, hga, hm, hcall]
    · refine ⟨?_, ?_⟩
      · simp [BaseResource.getApi, hga, hm]
      · simp [BaseResource.callApi, BaseResource.getApi, hga, hm, isMethodNotAllowed]

/-- C2: on a route registered (by `addApi`) as `{method, route, name}`,
`callApi(route, method, ...args)` is extensionally identical to
`callAction(name, ...args)`: same event trace, same resolved value, same
rejection. -/
theorem callApi_delegates_to_callAction {V E : Type} (env : Env V E) (s : State V E)
    (r : BaseResource V) (route : String) (name : String) (method : Method)
    (args : List V)
    (h : BaseResource.apisOf s r route = some ⟨method, route, name⟩) :
    BaseResource.callApi env s r route method args
      = BaseResource.callAction env s r name args := by
  have hga : BaseResource.getApi s r route method = some ⟨method, route, name⟩ := by
    simp [BaseResource.getApi,
      show s.apisStore r._apis route = some ⟨method, route, name⟩ from h]
  simp [BaseResource.callApi, hga]

/-- Witness for C2: `addApi("/create", "double", "POST")` then
`callApi("/create", "POST", 5)` behaves identically to
`callAction("double", 5)` (here both reject through the throwing
notifier, identically). -/
theorem callApi_delegates_to_callAction_witness :
    BaseResource.callApi exEnv exSB5.1 exR "/create" Method.POST [5]
      = BaseResource.callAction exEnv exSB5.1 exR "double" [5] :=
  callApi_delegates_to_callAction exEnv exSB5.1 exR "/create" "double" Method.POST [5] rfl

/-- C10: a failing notifier rejects the calling `callAction` with the
notifier's own (caller-supplied) failure, even though the action body
already succeeded with `v`; the action's result is not delivered. -/
theorem notifier_failure_rejects_call {V E : Type} (env : Env V E) (s : State V E)
    (r : BaseResource V) (name : String) (args : List V) (f : ActionFn V E)
    (v : V) (i : Nat) (e : E)
    (hf : BaseResource.getAction s r name = some f)
    (hv : f r._context args = Except.ok v)
    (hi : i ∈ BaseResource.notifsOf s r name)
    (he : env.notifierFn i v = Except.error e) :
    isUserError (BaseResource.callAction env s r name args).2 = true
    ∧ (BaseResource.callAction env s r name args).2 ≠ Except.ok v := by
  have hsome := runNotifiers_mem_error env v (s.notifStore r._notifiers name) i e hi he
  cases hrn : (runNotifiers env v (s.notifStore r._notifiers name)).2 with
  | none =>
    rw [hrn] at hsome
    cases hsome
  | some e2 =>
    have hres : (BaseResource.callAction env s r name args).2
        = Except.error (Err.user e2) := by
      simp [BaseResource.callAction, hf, hv, hrn]
    rw [hres]
    exact ⟨rfl, fun hEq => Except.noConfusion hEq⟩

/-- Witness for C10: with the throwing notifier `7` registered for
`double`, `callAction("double", 5)` rejects with the notifier's failure
although the action succeeded with `10`. -/
theorem notifier_failure_rejects_call_witness :
    isUserError (BaseResource.callAction exEnv exSB4.1 exR "double" [5]).2 = true
    ∧ (BaseResource.callAction exEnv exSB4.1 exR "double" [5]).2 ≠ Except.ok 10 :=
  notifier_failure_rejects_call exEnv exSB4.1 exR "double" [5] exFn 10 7 11
    rfl rfl (by decide) rfl

/-- C5: with the (duplicate-free, by set semantics) notifier list
registered for `name`, one successful call invokes every registered
notifier exactly once, each receiving the action's result value, and the
call settles only after all of them: the settled trace is the action
invocation followed by one invocation event per registered notifier, and
the outcome is the action's result. -/
theorem notifiers_each_invoked_once {V E : Type} [DecidableEq V] (env : Env V E)
    (s : State V E) (r : BaseResource V) (name : String) (args : List V)
    (f : ActionFn V E) (v : V) (i : Nat)
    (hf : BaseResource.getAction s r name = some f)
    (hv : f r._context args = Except.ok v)
    (hns : ∀ j ∈ BaseResource.notifsOf s r name, env.notifierFn j v = Except.ok ())
    (hnd : (BaseResource.notifsOf s r name).Nodup)
    (hi : i ∈ BaseResource.notifsOf s r name) :
    BaseResource.callAction env s r name args
      = (Event.actionCall name args
          :: (BaseResource.notifsOf s r name).map (fun j => Event.notifierCall j v),
         Except.ok v)
    ∧ (BaseResource.callAction env s r name args).1.count (Event.notifierCall i v) = 1 :=
  ⟨callAction_trace env s r name args f v hf hv hns,
   callAction_trace_count env s r name args f v i hf hv hns hnd hi⟩

/-- Witness for C5: `TestResource` with notifiers `0` and `1` registered
for `double`; calling `double(5)` invokes each exactly once with `10`
before resolving to `10`. -/
theorem notifiers_each_invoked_once_witness :
    BaseResource.callAction exEnv exSB3.1 exR "double" [5]
      = (Event.actionCall "double" [5]
          :: (BaseResource.notifsOf exSB3.1 exR "double").map
              (fun j => Event.notifierCall j 10),
         Except.ok 10)
    ∧ (BaseResource.callAction exEnv exSB3.1 exR "double" [5]).1.count
        (Event.notifierCall 0 10) = 1 :=
  notifiers_each_invoked_once exEnv exSB3.1 exR "double" [5] exFn 10 0
    rfl rfl (by decide) (by decide) (by decide)

/-- C6: `addNotifier` with the same notifier reference is idempotent
(JS `Set` semantics): adding it twice leaves the builder and the heap
exactly as adding it once does, and a subsequent successful call of the
action invokes that notifier exactly once. -/
theorem addNotifier_idempotent {V E : Type} [DecidableEq V] (env : Env V E)
    (s : State V E) (b : ResourceBuilder V) (name : String) (i : Nat)
    (args : List V) (f : ActionFn V E) (v : V)
    (hf : s.actionsStore b._actions name = some f)
    (hv : f b._context args = Except.ok v)
    (hns : ∀ j ∈ dedupAdd (s.notifStore b._notifiers name) i,
        env.notifierFn j v = Except.ok ())
    (hnd : (s.notifStore b._notifiers name).Nodup) :
    ResourceBuilder.addNotifier (ResourceBuilder.addNotifier s b name i).1
        (ResourceBuilder.addNotifier s b name i).2 name i
      = ResourceBuilder.addNotifier s b name i
    ∧ (BaseResource.callAction env
        (ResourceBuilder.addNotifier (ResourceBuilder.addNotifier s b name i).1
          (ResourceBuilder.addNotifier s b name i).2 name i).1
        (ResourceBuilder.build b) name args).1.count (Event.notifierCall i v) = 1 := by
  have hstate : bump (bump s.notifStore b._notifiers name (fun l => dedupAdd l i))
      b._notifiers name (fun l => dedupAdd l i)
      = bump s.notifStore b._notifiers name (fun l => dedupAdd l i) :=
    bump_idem _ _ _ _ (fun x => dedupAdd_idem x i)
  have h1 : ResourceBuilder.addNotifier (ResourceBuilder.addNotifier s b name i).1
      (ResourceBuilder.addNotifier s b name i).2 name i
      = ResourceBuilder.addNotifier s b name i := by
    simp only [ResourceBuilder.addNotifier]
    rw [hstate]
  refine ⟨h1, ?_⟩
  rw [h1]
  have hnotifs : BaseResource.notifsOf (ResourceBuilder.addNotifier s b name i).1
      (ResourceBuilder.build b) name = dedupAdd (s.notifStore b._notifiers name) i := by
    simp only [BaseResource.notifsOf, ResourceBuilder.addNotifier, ResourceBuilder.build]
    exact bump_read s.notifStore b._notifiers name (fun l => dedupAdd l i)
  have hns' : ∀ j ∈ BaseResource.notifsOf (ResourceBuilder.addNotifier s b name i).1
      (ResourceBuilder.build b) name, env.notifierFn j v = Except.ok () := by
    rw [hnotifs]
    exact hns
  have hnd' : (BaseResource.notifsOf (ResourceBuilder.addNotifier s b name i).1
      (ResourceBuilder.build b) name).Nodup := by
    rw [hnotifs]
    exact dedupAdd_nodup _ _ hnd
  have hi' : i ∈ BaseResource.notifsOf (ResourceBuilder.addNotifier s b name i).1
      (ResourceBuilder.build b) name := by
    rw [hnotifs]
    exact dedupAdd_mem _ _
  exact callAction_trace_count env (ResourceBuilder.addNotifier s b name i).1
    (ResourceBuilder.build b) name args f v i hf hv hns' hnd' hi'

/-- Witness for C6: adding notifier `0` for `double` twice on the
one-action builder collapses to one registration and one invocation. -/
theorem addNotifier_idempotent_witness :
    ResourceBuilder.addNotifier (ResourceBuilder.addNotifier exSB1.1 exSB1.2 "double" 0).1
        (ResourceBuilder.addNotifier exSB1.1 exSB1.2 "double" 0).2 "double" 0
      = ResourceBuilder.addNotifier exSB1.1 exSB1.2 "double" 0
    ∧ (BaseResource.callAction exEnv
        (ResourceBuilder.addNotifier (ResourceBuilder.addNotifier exSB1.1 exSB1.2 "double" 0).1
          (ResourceBuilder.addNotifier exSB1.1 exSB1.2 "double" 0).2 "double" 0).1
        (ResourceBuilder.build exSB1.2) "double" [5]).1.count
        (Event.notifierCall 0 10) = 1 :=
  addNotifier_idempotent exEnv exSB1.1 exSB1.2 "double" 0 [5] exFn 10
    rfl rfl (by decide) (by decide)

/-- C3 counterexample: the claim says `setContext` commutes with
`addNotifier` (no name/route collision between them), but on the code
`.addNotifier("a", n).setContext(5)` builds a resource with NO notifier
for `a` (the fresh builder returned by `setContext` starts with an empty
notifier map), while `.setContext(5).addNotifier("a", n)` builds one with
notifier list `[n]`. -/
theorem setContext_discards_notifiers_cex :
    BaseResource.notifsOf c3seqA.1 (ResourceBuilder.build c3seqA.2) "a" = []
    ∧ BaseResource.notifsOf c3seqB.1 (ResourceBuilder.build c3seqB.2) "a" = [0]
    ∧ BaseResource.notifsOf c3seqA.1 (ResourceBuilder.build c3seqA.2) "a"
      ≠ BaseResource.notifsOf c3seqB.1 (ResourceBuilder.build c3seqB.2) "a" := by
  refine ⟨rfl, rfl, ?_⟩
  decide

/-- C3 amended: `createAction`, `addNotifier` and `addApi` are
order-independent except for last-write-wins collisions on the same
name/route (adjacent non-colliding calls commute exactly, heap and
builder alike), and `setContext` commutes with `createAction` (the action
record is shared by reference); but `setContext` does NOT commute with
`addNotifier`/`addApi`, since it returns a fresh builder with empty
notifier and api maps, discarding earlier `addNotifier`/`addApi`
registrations. -/
theorem registration_ops_commute {V E : Type} (sb : State V E × ResourceBuilder V)
    (o1 o2 : BOp V E) (c : V) (n : String) (f : ActionFn V E)
    (h1 : o1.isSetContext = false) (h2 : o2.isSetContext = false)
    (hc : ¬ collides o1 o2) :
    applyOp (applyOp sb o1) o2 = applyOp (applyOp sb o2) o1
    ∧ applyOp (applyOp sb (BOp.setContext c)) (BOp.createAction n f)
      = applyOp (applyOp sb (BOp.createAction n f)) (BOp.setContext c) := by
  obtain ⟨s, b⟩ := sb
  constructor
  · rcases o1 with ⟨n1, f1⟩ | ⟨n1, i1⟩ | ⟨r1, a1, m1⟩ | c1 <;>
      rcases o2 with ⟨n2, f2⟩ | ⟨n2, i2⟩ | ⟨r2, a2, m2⟩ | c2
    all_goals try exact Bool.noConfusion h1
    all_goals try exact Bool.noConfusion h2
    all_goals simp only [collides] at hc
    all_goals simp only [applyOp, ResourceBuilder.createAction,
      ResourceBuilder.addNotifier, ResourceBuilder.addApi]
    · rw [bump_comm s.actionsStore b._actions n1 n2
        (fun _ => some f1) (fun _ => some f2) hc]
    · rw [bump_comm s.notifStore b._notifiers n1 n2
        (fun l => dedupAdd l i1) (fun l => dedupAdd l i2) hc]
    · rw [bump_comm s.apisStore b._apis r1 r2
        (fun _ => some ⟨m1, r1, a1⟩) (fun _ => some ⟨m2, r2, a2⟩) hc]
  · rfl

/-- Witness for C3 amended: `createAction("a", ...)` commutes with
`addApi("/a", "a", GET)` on the fresh `TestResource` builder, and
`setContext(5)` commutes with `createAction("z", ...)`. -/
theorem registration_ops_commute_witness :
    applyOp (applyOp exSB0 (BOp.createAction "a" exFn)) (BOp.addApi "/a" "a" Method.GET)
      = applyOp (applyOp exSB0 (BOp.addApi "/a" "a" Method.GET)) (BOp.createAction "a" exFn)
    ∧ applyOp (applyOp exSB0 (BOp.setContext 5)) (BOp.createAction "z" exFn)
      = applyOp (applyOp exSB0 (BOp.createAction "z" exFn)) (BOp.setContext 5) :=
  registration_ops_commute exSB0 (BOp.createAction "a" exFn)
    (BOp.addApi "/a" "a" Method.GET) 5 "z" exFn rfl rfl (by simp [collides])

/-- C4 counterexample: the claim says a built resource is never mutated
by later builder calls, but `build()` shares the `_actions` record by
reference: after `r = b.build()`, `b.createAction("x2", ...)` makes
`r.callAction("x2")` — which rejected with `ActionNotFound` at build
time — resolve to the new action's value. -/
theorem build_shares_builder_state_cex :
    (BaseResource.callAction exEnv c4sb1.1 c4r "x2" []).2
      = Except.error (Err.actionNotFound "x2")
    ∧ (BaseResource.callAction exEnv c4sb2.1 c4r "x2" []).2 = Except.ok 7
    ∧ BaseResource.actionsOf c4sb1.1 c4r "x2" = none
    ∧ (BaseResource.actionsOf c4sb2.1 c4r "x2").isSome = true :=
  ⟨rfl, rfl, rfl, rfl⟩

/-- C4 amended: after `r = b.build()`, a `setContext` on `b` leaves `r`'s
context, action map, api map and notifier map unchanged (it only
allocates fresh objects for the NEW builder); but `createAction`,
`addNotifier` and `addApi` on `b` mutate the very records `r` holds —
`build()` shares them by reference — updating `r`'s maps exactly as they
update the builder's. -/
theorem post_build_mutation_characterized {V E : Type} (s : State V E)
    (b : ResourceBuilder V) (c : V) (n : String) (f : ActionFn V E) (nn : String)
    (i : Nat) (route : String) (aname : String) (m : Method)
    (hwf : WFB s b) :
    BaseResource.actionsOf (ResourceBuilder.setContext s b c).1 (ResourceBuilder.build b)
      = BaseResource.actionsOf s (ResourceBuilder.build b)
    ∧ BaseResource.apisOf (ResourceBuilder.setContext s b c).1 (ResourceBuilder.build b)
      = BaseResource.apisOf s (ResourceBuilder.build b)
    ∧ (ResourceBuilder.setContext s b c).1.notifStore
        (ResourceBuilder.build b)._notifiers
      = s.notifStore (ResourceBuilder.build b)._notifiers
    ∧ BaseResource.actionsOf (ResourceBuilder.createAction s b n f).1
        (ResourceBuilder.build b)
      = updS (BaseResource.actionsOf s (ResourceBuilder.build b)) n (some f)
    ∧ (ResourceBuilder.addNotifier s b nn i).1.notifStore
        (ResourceBuilder.build b)._notifiers
      = updS (s.notifStore (ResourceBuilder.build b)._notifiers) nn
          (dedupAdd (s.notifStore (ResourceBuilder.build b)._notifiers nn) i)
    ∧ BaseResource.apisOf (ResourceBuilder.addApi s b route aname m).1
        (ResourceBuilder.build b)
      = updS (BaseResource.apisOf s (ResourceBuilder.build b)) route
          (some ⟨m, route, aname⟩) := by
  obtain ⟨hwa, hwp, hwn⟩ := hwf
  refine ⟨rfl, ?_, ?_, ?_, ?_, ?_⟩
  · exact updN_ne s.apisStore s.nextRef b._apis _ (Nat.ne_of_lt hwp)
  · exact updN_ne s.notifStore (s.nextRef + 1) b._notifiers _
      (Nat.ne_of_lt (Nat.lt_trans hwn (Nat.lt_succ_self _)))
  · exact bump_at s.actionsStore b._actions n (fun _ => some f)
  · exact bump_at s.notifStore b._notifiers nn (fun l => dedupAdd l i)
  · exact bump_at s.apisStore b._apis route (fun _ => some ⟨m, route, aname⟩)

/-- Witness for C4 amended, at the built `TestResource`: `setContext`
leaves the built resource's maps untouched while the three registration
calls update the shared records in place. -/
theorem post_build_mutation_characterized_witness :
    BaseResource.actionsOf (ResourceBuilder.setContext exSB3.1 exSB3.2 9).1
        (ResourceBuilder.build exSB3.2)
      = BaseResource.actionsOf exSB3.1 (ResourceBuilder.build exSB3.2)
    ∧ BaseResource.apisOf (ResourceBuilder.setContext exSB3.1 exSB3.2 9).1
        (ResourceBuilder.build exSB3.2)
      = BaseResource.apisOf exSB3.1 (ResourceBuilder.build exSB3.2)
    ∧ (ResourceBuilder.setContext exSB3.1 exSB3.2 9).1.notifStore
        (ResourceBuilder.build exSB3.2)._notifiers
      = exSB3.1.notifStore (ResourceBuilder.build exSB3.2)._notifiers
    ∧ BaseResource.actionsOf (ResourceBuilder.createAction exSB3.1 exSB3.2 "x2" exFn).1
        (ResourceBuilder.build exSB3.2)
      = updS (BaseResource.actionsOf exSB3.1 (ResourceBuilder.build exSB3.2)) "x2"
          (some exFn)
    ∧ (ResourceBuilder.addNotifier exSB3.1 exSB3.2 "double" 7).1.notifStore
        (ResourceBuilder.build exSB3.2)._notifiers
      = updS (exSB3.1.notifStore (ResourceBuilder.build exSB3.2)._notifiers) "double"
          (dedupAdd (exSB3.1.notifStore (ResourceBuilder.build exSB3.2)._notifiers "double") 7)
    ∧ BaseResource.apisOf (ResourceBuilder.addApi exSB3.1 exSB3.2 "/create" "double"
          Method.POST).1 (ResourceBuilder.build exSB3.2)
      = updS (BaseResource.apisOf exSB3.1 (ResourceBuilder.build exSB3.2)) "/create"
          (some ⟨Method.POST, "/create", "double"⟩) :=
  post_build_mutation_characterized exSB3.1 exSB3.2 9 "x2" exFn "double" 7 "/create"
    "double" Method.POST ⟨by decide, by decide, by decide⟩

end Risu
